import Mathlib

/-!
Formal model of the breath-u1 wellbeing pipeline (coordinator, emotion agent,
feedback agent, interface agent and the uninformed-search scheduler),
shallowly embedded in Lean.

Modelling conventions:
- Python strings are Lean strings; substring tests (`w in s`) are modelled by
  an executable character-list scan (`containsSub`).
- Python floats are modelled as rationals; `round(x, k)` is modelled as
  half-up rounding to k decimal places (the program only ever rounds values
  that are exact multiples of 1/20, where every rounding convention agrees).
- Python `str.lower()` is modelled by ASCII lowercasing of each character.
- The regular expressions in `emotion_agent.py` only use literal characters,
  the wildcard dot and the whitespace class; they are modelled by a small
  executable token matcher.
- Fallible outside calls (the remote LLM, the HF pipeline, the calendar)
  are modelled as oracle parameters; an exception is an `Except.error` or a
  `none` outcome.  Code that can never raise is modelled by a total function.
-/

/-- Model of checking that `needle` is a leading sequence of `hay`
(character lists). -/
def startsWithL : List Char → List Char → Bool
  | [], _ => true
  | _ :: _, [] => false
  | a :: as, b :: bs => (a == b) && startsWithL as bs

/-- Model of the Python substring test: does `needle` occur somewhere in the
haystack list? -/
def containsL (needle : List Char) : List Char → Bool
  | [] => startsWithL needle []
  | c :: cs => startsWithL needle (c :: cs) || containsL needle cs

/-- Model of Python `needle in hay` on strings. -/
def containsSub (hay needle : String) : Bool :=
  containsL needle.data hay.data

/-- Model of Python `str.lower()` (ASCII characters; every concrete input used
in this development is already lower case outside ASCII letters). -/
def lowerStr (s : String) : String :=
  ⟨s.data.map Char.toLower⟩

/-- Model of Python `str.strip()` on the underlying character list. -/
def stripChars (l : List Char) : List Char :=
  ((l.dropWhile Char.isWhitespace).reverse.dropWhile Char.isWhitespace).reverse

/-- Model of the Python blank test `not text.strip()`. -/
def isBlank (s : String) : Bool :=
  (stripChars s.data).isEmpty

/-- Model of Python `round(x, 2)` (half-up; see the module comment). -/
def round2 (q : ℚ) : ℚ :=
  (⌊q * 100 + 1/2⌋ : ℚ) / 100

/-- Model of Python `round(x, 3)`. -/
def round3 (q : ℚ) : ℚ :=
  (⌊q * 1000 + 1/2⌋ : ℚ) / 1000

/-- Tokens of the tiny regex language used by `emotion_agent.py`:
a literal character, the class `\s+` (one or more whitespace characters) and
the wildcard dot. -/
inductive PTok
  | lit (c : Char)
  | ws
  | anyc
deriving DecidableEq

/-- Matcher for a token pattern against the head of a character list
(with backtracking for the `\s+` class), modelling `re.match` at a fixed
position. -/
def matchToks : List Char → List PTok → Bool
  | _, [] => true
  | [], _ :: _ => false
  | x :: xs, PTok.lit c :: ps => (c == x) && matchToks xs ps
  | _ :: xs, PTok.anyc :: ps => matchToks xs ps
  | x :: xs, PTok.ws :: ps =>
      x.isWhitespace && (matchToks xs ps || matchToks xs (PTok.ws :: ps))

/-- Model of `re.search`: try the pattern at every position. -/
def searchToks (p : List PTok) : List Char → Bool
  | [] => matchToks [] p
  | c :: cs => matchToks (c :: cs) p || searchToks p cs

/-- Literal characters of a string as pattern tokens. -/
def litToks (s : String) : List PTok :=
  s.data.map PTok.lit

/-!
Emotion agent (`src/emotion_agent.py`).
-/

/-- The stress indicator list of `EmotionAgent._classify_heuristic`
(lines 160-182), kept verbatim, duplicates included. -/
def stress_indicators : List String := [
  "stress", "stressado", "estressado", "estressada", "tensão", "tenso", "tensa",
  "ansios", "ansiedade", "ansioso", "ansiosa", "nervos", "nervoso", "nervosa", "nervousness",
  "preocupad", "preocupado", "preocupada", "angustia", "angústia", "angustiado", "angustiada",
  "medo", "tem medo", "assustado", "assustada", "pânico", "ataque de pânico", "aterrorizado",
  "sobrecarreg", "sobrecarregado", "sobrecarregada", "pressão", "deadline", "prazo", "prazos",
  "exame", "teste", "prova", "exaust", "exausto", "exausta", "esgotado", "esgotada", "faculdade", "universidade",
  "não consigo dormir", "insônia", "insonia", "coração acelerado", "suor frio",
  "não consigo respirar", "falta de ar", "tremor", "tremores", "cansado", "cansada",
  "desesperado", "desesperada", "sem esperança", "não aguento mais", "no limite",
  "fatigado", "fatigada", "esgotamento",
  "irritado", "irritada", "zangado", "zangada", "raiva", "furioso", "furiosa",
  "sobrecarregado", "sobrecarregada", "não dou conta", "muito para fazer",
  "muitas tarefas", "muito trabalho", "muita pressão", "muitos exames", "muitos trabalhos"]

/-- The valence indicator list (lines 184-189). -/
def valence_indicators : List String := [
  "feliz", "alegre", "bom", "boa", "satisfeito", "satisfeita", "alegria",
  "joy", "happy", "love", "content", "contente", "bem", "optimista", "otimista",
  "grato", "grata", "sorridente", "sorriso", "entusiasmado", "entusiasmada",
  "animado", "animada", "felicidade", "prazer", "diversão", "brincar"]

/-- Weight given to a matched stress indicator (lines 193-202). -/
def indicatorWeight (w : String) : Nat :=
  if w = "ataque de pânico" ∨ w = "não aguento mais" ∨ w = "no limite" ∨
     w = "desesperado" ∨ w = "desesperada" then 4
  else if w = "exausto" ∨ w = "exausta" ∨ w = "esgotado" ∨ w = "esgotada" ∨
          w = "sobrecarregado" ∨ w = "sobrecarregada" then 3
  else if w = "ansiedade" ∨ w = "pânico" ∨ w = "angústia" ∨ w = "nervousness" then 2
  else 1

/-- The weighted stress count of the heuristic classifier (lines 191-202). -/
def stressCount (lower : String) : Nat :=
  stress_indicators.foldl
    (fun acc w => if containsSub lower w then acc + indicatorWeight w else acc) 0

/-- The valence count (line 204). -/
def valenceCount (lower : String) : Nat :=
  valence_indicators.foldl
    (fun acc w => if containsSub lower w then acc + 1 else acc) 0

/-- The words of the dead `elif` branch at line 222 of `emotion_agent.py`. -/
def specificStressWords : List String :=
  ["stress", "ansiedade", "preocupado", "sobrecarregado"]

/-- Stress before the phrase floor, as a function of the weighted count and of
the line-222 fallback test (lines 207-223): base 0.5 plus 0.15 per count,
clamped to 1, then a single flat bonus chosen by the elif chain on the count,
again clamped to 1. -/
def stressFromCount (c : Nat) (specific : Bool) : ℚ :=
  if 0 < c then
    if 6 ≤ c then min 1 (min 1 (1/2 + (c : ℚ) * (3/20)) + 3/10)
    else if 4 ≤ c then min 1 (min 1 (1/2 + (c : ℚ) * (3/20)) + 1/5)
    else if 2 ≤ c then min 1 (min 1 (1/2 + (c : ℚ) * (3/20)) + 1/10)
    else min 1 (1/2 + (c : ℚ) * (3/20))
  else if specific then 2/5 else 0

/-- The sixteen high-intensity regex phrases (lines 229-246), translated
token for token: `\s+` becomes `PTok.ws` and the dot becomes `PTok.anyc`. -/
def high_stress_phrases : List (List PTok) := [
  litToks "estou" ++ [PTok.ws] ++ litToks "muito" ++ [PTok.ws] ++ litToks "stressado",
  litToks "muitos" ++ [PTok.ws] ++ litToks "exames",
  litToks "muitos" ++ [PTok.ws] ++ litToks "trabalhos",
  litToks "sinto" ++ [PTok.anyc] ++ litToks "me" ++ [PTok.ws] ++ litToks "sobrecarregado",
  litToks "sinto" ++ [PTok.anyc] ++ litToks "me" ++ [PTok.ws] ++ litToks "sobrecarregada",
  litToks "sinto" ++ [PTok.anyc] ++ litToks "me" ++ [PTok.ws] ++ litToks "cansado",
  litToks "sinto" ++ [PTok.anyc] ++ litToks "me" ++ [PTok.ws] ++ litToks "cansada",
  litToks "não" ++ [PTok.ws] ++ litToks "aguento" ++ [PTok.ws] ++ litToks "mais",
  litToks "estou" ++ [PTok.ws] ++ litToks "no" ++ [PTok.ws] ++ litToks "limite",
  litToks "ataque" ++ [PTok.ws] ++ litToks "de" ++ [PTok.ws] ++ litToks "pânico",
  litToks "não" ++ [PTok.ws] ++ litToks "consigo" ++ [PTok.ws] ++ litToks "respirar",
  litToks "coração" ++ [PTok.ws] ++ litToks "acelerado",
  litToks "vou" ++ [PTok.ws] ++ litToks "ter" ++ [PTok.ws] ++ litToks "um" ++ [PTok.ws] ++ litToks "ataque",
  litToks "não" ++ [PTok.ws] ++ litToks "vejo" ++ [PTok.ws] ++ litToks "solução",
  litToks "estou" ++ [PTok.ws] ++ litToks "desesperado",
  litToks "estou" ++ [PTok.ws] ++ litToks "desesperada"]

/-- Does some high-intensity phrase match the (lowered) text (lines 248-251)? -/
def phraseHit (lower : String) : Bool :=
  high_stress_phrases.any (fun p => searchToks p lower.data)

/-- The emotion part of the classifier result. -/
structure EmotionOut where
  stress_score : ℚ
  valence : ℚ
  dominant : Option String
deriving DecidableEq

/-- Model of `EmotionAgent._classify_heuristic` (lines 153-277). -/
def classify_heuristic (text : String) : EmotionOut :=
  let lower := lowerStr text
  let c := stressCount lower
  let vc := valenceCount lower
  let specific := specificStressWords.any (fun w => containsSub lower w)
  let stress0 := stressFromCount c specific
  let stress := if phraseHit lower then max stress0 (7/10) else stress0
  let valence : ℚ := if 0 < vc then min (9/10) (3/10 + (vc : ℚ) * (1/10)) else 0
  let dominant :=
    if stress > 7/10 then "alto_stress"
    else if stress > 2/5 then "stress"
    else if stress > valence then "stress_leve"
    else if valence > stress then "felicidade"
    else "neutro"
  { stress_score := round2 stress, valence := round2 valence, dominant := some dominant }

/-- Labels counted as stress by the HF mapping (line 119). -/
def hf_stress_labels : List String :=
  ["anger", "sadness", "fear", "annoyance", "disapproval", "disappointment", "nervousness"]

/-- Labels counted as valence by the HF mapping (line 120). -/
def hf_valence_labels : List String :=
  ["joy", "love", "approval", "admiration", "optimism", "excitement"]

/-- Leftmost maximal-score element, modelling Python `max(..., key=score)`
(line 137). -/
def maxByScore : List (String × ℚ) → Option (String × ℚ)
  | [] => none
  | p :: rest =>
    match maxByScore rest with
    | none => some p
    | some q => if q.2 > p.2 then some q else some p

/-- Model of `EmotionAgent._classify_with_hf` (lines 99-151) on an
already-flattened list of label/score pairs produced by the pipeline. -/
def classify_with_hf (labels : List (String × ℚ)) : EmotionOut :=
  let stress := (labels.filter (fun p => hf_stress_labels.contains (lowerStr p.1))).foldl
    (fun acc p => acc + p.2) 0
  let valence := (labels.filter (fun p => hf_valence_labels.contains (lowerStr p.1))).foldl
    (fun acc p => acc + p.2) 0
  { stress_score := min 1 stress,
    valence := min 1 valence,
    dominant := (maxByScore labels).map (fun p => p.1) }

/-- The configuration state of `EmotionAgent.__init__` that `classify`
consults. -/
structure EmotionAgent where
  model_name : Option String := none
  use_hf : Bool := false

/-- Result of `classify` together with the ghost observation of whether the
optional HF scorer was invoked. -/
structure ClassifyOut where
  res : EmotionOut
  hfInvoked : Bool
deriving DecidableEq

/-- Model of `EmotionAgent.classify` (lines 78-97).  The HF pipeline is an
oracle returning the flattened label/score list, `none` meaning the pipeline
is unavailable or raised.  Line 79 (`text = text or ""`) is the `Option`
default; line 81 sets the local flag to `false` before the HF guard is
evaluated, so the guard is taken verbatim from the source with that flag. -/
def classify (_a : EmotionAgent) (hf : String → Option (List (String × ℚ)))
    (input : Option String) : ClassifyOut :=
  let text := input.getD ""
  let use_hf := false
  if (use_hf = true) ∧ 5 < (stripChars text.data).length then
    match hf text with
    | none => ⟨classify_heuristic text, true⟩
    | some labels =>
      let r := classify_with_hf labels
      if r.stress_score < 3/10 then ⟨classify_heuristic text, true⟩
      else ⟨r, true⟩
  else ⟨classify_heuristic text, false⟩

/-!
Uninformed-search scheduler (`src/uninformed_search.py`).
-/

/-- The slot label built at line 12 of `uninformed_search.py`:
`f"Slot {len(schedule)+1}: {task}"` with `idx = len(schedule)`. -/
def slotLabel (idx : Nat) (task : String) : String :=
  "Slot " ++ toString (idx + 1) ++ ": " ++ task

/-- The while loop of `bfs_schedule` (lines 10-12).  The growing `schedule`
accumulator of the source is represented by its length `idx`; each iteration
pops the head of the queue and, while fewer than `n` slots are filled,
appends one labelled slot. -/
def bfsGo (n : Nat) : List String → Nat → List String
  | [], _ => []
  | t :: rest, idx =>
    if idx < n then slotLabel idx t :: bfsGo n rest (idx + 1) else []

/-- Model of `bfs_schedule(tasks, available_slots)` (lines 5-13). -/
def bfs_schedule (tasks : List String) (available_slots : Nat) : List String :=
  if tasks = [] ∨ available_slots = 0 then []
  else bfsGo available_slots tasks 0

/-- Model of `calculate_stress_slots` (lines 15-21). -/
def calculate_stress_slots (stress_level : ℚ) : Nat :=
  if stress_level > 7/10 then 2
  else if stress_level > 2/5 then 3
  else 4

/-!
Intent extraction (`src/interface_agent.py`), restricted to the `tasks` slot
that the coordinator consumes.
-/

/-- Task keywords of `InterfaceAgent.extract_intent` (line 139). -/
def intent_task_keywords : List String := ["estudar", "tarefa", "trabalho", "projeto"]

/-- The `tasks` slot produced by `InterfaceAgent.extract_intent`
(lines 138-146): a study/work marker on a keyword hit, then a deadline marker
guarded by the (always true) `"tem" not in tasks` test. -/
def intent_slots_tasks (text : String) : List String :=
  let lower := lowerStr text
  let tasks :=
    if intent_task_keywords.any (fun w => containsSub lower w) then
      ["referência a estudo/trabalho"]
    else []
  if (containsSub lower "prazo" || containsSub lower "deadline")
      && !(tasks.contains "tem") then
    tasks ++ ["tem prazos"]
  else tasks

/-!
Feedback agent (`src/feedback_agent.py`).
-/

/-- A JSON-like value, modelling the Python dict/list/str payloads that the
feedback path passes around. -/
inductive JVal
  | str (s : String)
  | num (q : ℚ)
  | jbool (b : Bool)
  | jnull
  | arr (xs : List JVal)
  | obj (kvs : List (String × JVal))

/-- Dictionary lookup on a `JVal.obj` field list (Python `dict.get`). -/
def jlookup : List (String × JVal) → String → Option JVal
  | [], _ => none
  | (k, v) :: rest, key => if k = key then some v else jlookup rest key

/-- String content of an optional field, empty when absent or not a string. -/
def jStrOf : Option JVal → String
  | some (JVal.str s) => s
  | _ => ""

/-- A recommendation dict, as built by the heuristic generator. -/
def mkRec (t x w : String) : JVal :=
  JVal.obj [("type", JVal.str t), ("text", JVal.str x), ("why", JVal.str w)]

/-- Ghost provenance of a feedback result: which generator actually produced
its recommendations. -/
inductive Generator
  | remote
  | heuristic
  | system
deriving DecidableEq

/-- A feedback result dict: the fields of the envelope plus the ghost
provenance observation. -/
structure FBResult where
  recommendations : List JVal
  follow_up_prompt : String
  source : String
  producedBy : Generator

/-- The emotion summary dict handed to the feedback agent (the `dominant`
entry can be Python `None`). -/
structure EmotionSummary where
  stress_score : ℚ
  valence : ℚ
  dominant : Option String

/-- Python `str(x)` for the optional dominant label. -/
def pyStr : Option String → String
  | some s => s
  | none => "None"

/-- Configuration of `FeedbackAgent.__init__` (lines 14-28). -/
structure FBAgent where
  openrouter_available : Bool
  max_retries : Nat := 3
  retry_backoff : ℚ := 1
  request_timeout : ℚ := 30

/-- Recommendation triple of the `stress > 0.8` band (lines 316-332). -/
def bandCrisis : List JVal := [
  mkRec "immediate"
    "TÉCNICA 5-4-3-2-1: Identifica 5 coisas que vês, 4 que tocas, 3 que ouves, 2 que cheiras, 1 que gostas"
    "Grounding sensorial reduz sintomas de ansiedade aguda",
  mkRec "short_term"
    "POMODORO: 25min estudo + 5min pausa ativa - 4 ciclos + pausa longa"
    "Intervalos regulares melhoram foco e reduzem exaustão mental",
  mkRec "professional"
    "Procura apoio psicológico universitário ou linha de crise local"
    "Apoio imediato previne escalada de crise emocional"]

/-- Recommendation triple of the `stress > 0.6` band (lines 334-350). -/
def bandHigh : List JVal := [
  mkRec "immediate"
    "RESPIRAÇÃO 4-7-8: Inspira 4s, segura 7s, expira 8s (3 repetições)"
    "Respiração diafragmática ativa sistema parassimpático",
  mkRec "short_term"
    "Priorização por urgência e blocos de estudo"
    "Reduz sobrecarga decisória",
  mkRec "professional"
    "Marca consulta no Gabinete de Apoio ao Estudante"
    "Intervenção precoce ajuda"]

/-- Recommendation triple of the `stress > 0.4` band (lines 352-368). -/
def bandMedium : List JVal := [
  mkRec "immediate"
    "PAUSA ATIVA: 5min a caminhar ou alongar"
    "Reduz tensão e aumenta circulação",
  mkRec "short_term"
    "Planeamento semanal com blocos de 2h"
    "Estrutura reduz incerteza",
  mkRec "professional"
    "Diário emocional: regista emoções e gatilhos"
    "Auto-monitorização desenvolve inteligência emocional"]

/-- Recommendation triple of the `valence < 0.3` band (lines 370-386). -/
def bandLowValence : List JVal := [
  mkRec "immediate"
    "MÚSICA + MOVIMENTO: 1 música que gostes + movimento breve"
    "Melhora humor e aumenta energia",
  mkRec "short_term"
    "Exposição à luz natural 15min/dia"
    "Regula ritmo circadiano e humor",
  mkRec "professional"
    "Conecta com alguém de confiança"
    "Apoio social protege bem-estar"]

/-- Recommendation triple of the default band (lines 388-404). -/
def bandDefault : List JVal := [
  mkRec "immediate"
    "Aproveita estado de flow para tarefas que exigem foco"
    "Estados positivos potenciam performance",
  mkRec "short_term"
    "Técnica Feynman para consolidar conhecimento"
    "Aumenta retenção através da explicação ativa",
  mkRec "professional"
    "Explora workshops e iniciativas de desenvolvimento pessoal"
    "Engajamento em atividades promove bem-estar"]

/-- The calendar-aware extra recommendation (lines 411-415). -/
def transitionRec : JVal :=
  mkRec "short_term"
    "BLOCO DE TRANSIÇÃO: 15min entre compromissos para recuperação"
    "Previne acumulação de fadiga decisória"

/-- Keywords scanned in the joined calendar suggestions (line 409). -/
def meetingWords : List String := ["reunião", "aula", "evento", "compromisso"]

/-- Model of `FeedbackAgent._heuristic_feedback` (lines 304-421). -/
def heuristic_feedback (e : EmotionSummary) (cal : List String) : FBResult :=
  let stress := e.stress_score
  let valence := e.valence
  let dominant := lowerStr (pyStr e.dominant)
  let recs :=
    if stress > 4/5 ∨ containsSub dominant "ansiedade" ∨ containsSub dominant "panic" then
      bandCrisis
    else if stress > 3/5 then bandHigh
    else if stress > 2/5 then bandMedium
    else if valence < 3/10 then bandLowValence
    else bandDefault
  let recs :=
    if cal ≠ [] then
      let ctx := lowerStr (String.intercalate " " cal)
      if (meetingWords.any (fun w => containsSub ctx w)) ∧ stress > 1/2 then
        recs ++ [transitionRec]
      else recs
    else recs
  { recommendations := recs.take 3,
    follow_up_prompt :=
      "Como te sentes em relação a estas sugestões? Alguma faz particular sentido para ti?",
    source := "heuristic_evidence_based",
    producedBy := Generator.heuristic }

/-- Model of the tail of `FeedbackAgent._call_openrouter` (lines 133-168):
the network transfer, content extraction and JSON recovery are abstracted
into the single `parsed` argument (`none` = transport error, non-200 status,
empty content or unrecoverable JSON); the structural validation and the
source tagging are modelled verbatim.  On success the parsed dict is
returned unchanged apart from `source := "openrouter"`. -/
def call_openrouter (parsed : Option JVal) : Except Unit FBResult :=
  match parsed with
  | none => Except.error ()
  | some result =>
    match result with
    | JVal.obj kvs =>
      match jlookup kvs "recommendations" with
      | some (JVal.arr recs) =>
        if recs.isEmpty then Except.error ()
        else Except.ok
          { recommendations := recs,
            follow_up_prompt := jStrOf (jlookup kvs "follow_up_prompt"),
            source := "openrouter",
            producedBy := Generator.remote }
      | some _ => Except.error ()
      | none => Except.error ()
    | _ => Except.error ()

/-- Trace of the retry loop: the final outcome, the backoff delays actually
slept (in seconds) and the number of attempts issued. -/
structure RetryTrace (R : Type) where
  result : Except Unit R
  delays : List ℚ
  attempts : Nat

/-- The body of `FeedbackAgent._call_openrouter_with_retries` (lines 51-64):
`attempt` is the 1-based loop counter, the second argument the number of
loop iterations still allowed.  A failed attempt sleeps
`retry_backoff * 2 ^ (attempt - 1)` seconds unless it was the last one. -/
def retryAux {R : Type} (b : ℚ) (f : Nat → Except Unit R) (attempt : Nat) :
    Nat → RetryTrace R
  | 0 => ⟨Except.error (), [], 0⟩
  | rem + 1 =>
    match f attempt with
    | Except.ok r => ⟨Except.ok r, [], 1⟩
    | Except.error e =>
      if rem = 0 then ⟨Except.error e, [], 1⟩
      else
        let t := retryAux b f (attempt + 1) rem
        ⟨t.result, b * 2 ^ (attempt - 1) :: t.delays, t.attempts + 1⟩

/-- Model of `FeedbackAgent._call_openrouter_with_retries` for an agent `a`,
where `f k` is the outcome of the k-th attempt. -/
def call_openrouter_with_retries {R : Type} (a : FBAgent)
    (f : Nat → Except Unit R) : RetryTrace R :=
  retryAux a.retry_backoff f 1 a.max_retries

/-- Model of `FeedbackAgent.generate_feedback` (lines 30-49): when the remote
service is configured, run the retry loop over the per-attempt parsed
payloads `attempts`; any terminal failure falls back to the heuristic
generator.  Returns the result together with the number of network attempts
issued. -/
def generate_feedback (a : FBAgent) (attempts : Nat → Option JVal)
    (e : EmotionSummary) (cal : List String) : FBResult × Nat :=
  if a.openrouter_available then
    let t := call_openrouter_with_retries a (fun k => call_openrouter (attempts k))
    match t.result with
    | Except.ok r => (r, t.attempts)
    | Except.error _ => (heuristic_feedback e cal, t.attempts)
  else (heuristic_feedback e cal, 0)

/-- Model of `FeedbackAgent.craft_message` (lines 254-297).  When no API key
is configured the heuristic result is returned with `source` overwritten to
`"heuristic_fallback"` before any event-loop bridging happens.  Otherwise the
coroutine is run through one of the three bridging paths; `bridgeOk = false`
models a bridging failure (bounded wait expired, `asyncio.run` raised),
which the source catches and converts into the same heuristic
result with the overwritten tag. -/
def craft_message (a : FBAgent) (attempts : Nat → Option JVal) (bridgeOk : Bool)
    (e : EmotionSummary) (cal : List String) : FBResult × Nat :=
  if a.openrouter_available = false then
    ({ heuristic_feedback e cal with source := "heuristic_fallback" }, 0)
  else if bridgeOk then
    generate_feedback a attempts e cal
  else
    ({ heuristic_feedback e cal with source := "heuristic_fallback" }, 0)

/-!
Coordinator (`src/coordinator.py`).
-/

/-- The hard-coded default response of `Coordinator._safe_generate_feedback`
(lines 91-111). -/
def default_response : FBResult :=
  { recommendations := [
      mkRec "immediate"
        "Faz uma pausa de 5 minutos e respira profundamente."
        "Pausas curtas ajudam a reduzir o stress e melhorar o foco.",
      mkRec "short_term"
        "Organiza as tuas tarefas por prioridade."
        "Priorização ajuda a gerir melhor o tempo e reduzir a ansiedade.",
      mkRec "professional"
        "Mantém um diário das tuas emoções e progresso."
        "Auto-reflexão promove bem-estar mental a longo prazo."],
    follow_up_prompt := "Como te sentes após estas sugestões?",
    source := "Heuristic",
    producedBy := Generator.heuristic }

/-- Model of `Coordinator._safe_generate_feedback` (lines 89-143).
`hasAgent` is `self.feedback is not None`; `craftFault` models an unexpected
exception escaping `craft_message` (the outer `except` branch, which reruns
the agent-level heuristic and tags it `"Heuristic (Fallback)"`).  On the
normal path, a result with a non-empty `recommendations` list has its
`source` overwritten: `"LLM (OpenRouter)"` when the lowered source mentions
`openrouter`, else `"LLM"`. -/
def safe_generate_feedback (hasAgent craftFault : Bool) (a : FBAgent)
    (attempts : Nat → Option JVal) (bridgeOk : Bool)
    (e : EmotionSummary) (cal : List String) : FBResult :=
  if hasAgent = false then default_response
  else if craftFault then
    { heuristic_feedback e cal with source := "Heuristic (Fallback)" }
  else
    let r := (craft_message a attempts bridgeOk e cal).1
    if r.recommendations.isEmpty then default_response
    else if containsSub (lowerStr r.source) "openrouter" then
      { r with source := "LLM (OpenRouter)" }
    else
      { r with source := "LLM" }

/-- Python `max(0.0, min(1.0, x))` used at lines 203-204 of
`coordinator.py`. -/
def clamp01 (q : ℚ) : ℚ := max 0 (min 1 q)

/-- Study keywords of `_extract_tasks_from_text` (line 158). -/
def study_keywords : List String := ["estudar", "estudo", "revisar", "ler", "aprender"]

/-- Project keywords (line 159). -/
def project_keywords : List String := ["projeto", "trabalho", "assignment", "tarefa"]

/-- Exercise keywords (line 160). -/
def exercise_keywords : List String := ["exercício", "correr", "ginásio", "yoga", "desporto"]

/-- Default task list (line 171). -/
def default_tasks : List String := ["Estudo", "Revisão", "Exercícios", "Planeamento"]

/-- Model of `Coordinator._extract_tasks_from_text` (lines 145-173).
`slotTasks` is `slots["tasks"]` from the intent result; Python keeps only
truthy entries, modelled by dropping empty strings. -/
def extract_tasks (text : String) (slotTasks : List String) : List String :=
  let tasks0 := slotTasks.filter (fun t => t ≠ "")
  let lower := lowerStr text
  let tasks1 := tasks0 ++
    (if study_keywords.any (fun w => containsSub lower w) then ["Estudo/Revisão"] else [])
  let tasks2 := tasks1 ++
    (if project_keywords.any (fun w => containsSub lower w) then ["Trabalho de Projeto"] else [])
  let tasks3 := tasks2 ++
    (if exercise_keywords.any (fun w => containsSub lower w) then ["Exercício Físico"] else [])
  let tasks4 := if tasks3 = [] then default_tasks else tasks3
  tasks4.take 4

/-- The outside dependencies and failure switches of one `handle_text`
call.  A `true` fault flag or a `none` outcome models an exception raised by
the corresponding collaborator. -/
structure CoordDeps where
  hasInterface : Bool
  hasEmotion : Bool
  hasCalendar : Bool
  hasFeedback : Bool
  intentFault : Bool
  classifyFault : Bool
  emoAgent : EmotionAgent
  hfOracle : String → Option (List (String × ℚ))
  eventsOutcome : Option (List JVal)
  suggestOutcome : Option (List String)
  fb : FBAgent
  fbAttempts : Nat → Option JVal
  bridgeOk : Bool
  craftFault : Bool

/-- The response envelope assembled by `handle_text` (restricted to the
fields the specification talks about). -/
structure Response where
  stress_score : ℚ
  valence : ℚ
  dominant : Option String
  schedule : List String
  available_slots : Nat
  total_tasks : Nat
  events : List JVal
  message : FBResult
  success : Bool

/-- Model of `Coordinator._get_empty_response` (lines 264-272). -/
def empty_response : Response :=
  { stress_score := 0, valence := 0, dominant := some "unknown",
    schedule := [], available_slots := 0, total_tasks := 0, events := [],
    message := { recommendations := [],
                 follow_up_prompt := "Please provide some input.",
                 source := "System", producedBy := Generator.system },
    success := false }

/-- Model of `Coordinator._get_error_response` (lines 274-290). -/
def error_response : Response :=
  { stress_score := 0, valence := 0, dominant := some "unknown",
    schedule := [], available_slots := 0, total_tasks := 0, events := [],
    message := { recommendations := [
                   mkRec "immediate"
                     "Ocorreu um erro. Por favor, tenta novamente."
                     "Erro temporário do sistema"],
                 follow_up_prompt := "Desculpa pelo inconveniente. Podes tentar novamente?",
                 source := "System", producedBy := Generator.system },
    success := false }

/-- Model of `Coordinator.handle_text` (lines 175-262).  Blank input returns
the empty response; an exception escaping intent extraction (the only stage
whose failure is not caught locally inside the `try` block) returns the
error response; every other path assembles a full envelope with
`success = True`, substituting documented defaults for each locally-caught
stage failure. -/
def handle_text (d : CoordDeps) (text : String) : Response :=
  if isBlank text then empty_response
  else if d.intentFault then error_response
  else
    let slotTasks := if d.hasInterface then intent_slots_tasks text else []
    let emoOpt :=
      if d.hasEmotion && !d.classifyFault then
        some (classify d.emoAgent d.hfOracle (some text)).res
      else none
    let stress := clamp01 (match emoOpt with | some r => r.stress_score | none => 0)
    let valence := clamp01 (match emoOpt with | some r => r.valence | none => 0)
    let dominant := match emoOpt with | some r => r.dominant | none => none
    let events := if d.hasCalendar then d.eventsOutcome.getD [] else []
    let tasks := extract_tasks text slotTasks
    let available_slots := calculate_stress_slots stress
    let schedule := bfs_schedule tasks available_slots
    let suggestions := if d.hasCalendar then d.suggestOutcome.getD [] else []
    let msg := safe_generate_feedback d.hasFeedback d.craftFault d.fb d.fbAttempts
      d.bridgeOk { stress_score := stress, valence := valence, dominant := dominant }
      suggestions
    { stress_score := round3 stress,
      valence := round3 valence,
      dominant := dominant,
      schedule := schedule,
      available_slots := available_slots,
      total_tasks := tasks.length,
      events := events.take 5,
      message := msg,
      success := true }

/-!
Spec-side definitions and concrete inputs used by the claims.
-/

/-- The stress formula exactly as the specification words it (spec section
4.2, step 2): base 0.5 plus count times 0.15 clamped to 1, then one flat
bonus chosen by the count thresholds, clamped to 1.  Written from the
specification, to be compared with `stressFromCount`. -/
def specStressFormula (c : Nat) : ℚ :=
  if 6 ≤ c then min 1 (min 1 (1/2 + (c : ℚ) * (3/20)) + 3/10)
  else if 4 ≤ c then min 1 (min 1 (1/2 + (c : ℚ) * (3/20)) + 1/5)
  else if 2 ≤ c then min 1 (min 1 (1/2 + (c : ℚ) * (3/20)) + 1/10)
  else min 1 (1/2 + (c : ℚ) * (3/20))

/-- A feedback agent with no configured API token (`OPENROUTER_API_KEY`
absent) and the default retry settings. -/
def noTokenAgent : FBAgent := { openrouter_available := false }

/-- A feedback agent with a configured API token and default settings. -/
def tokenAgent : FBAgent := { openrouter_available := true }

/-- A neutral emotion summary. -/
def zeroSummary : EmotionSummary :=
  { stress_score := 0, valence := 0, dominant := none }

/-- A well-formed remote payload carrying four recommendations. -/
def fourRecsParsed : JVal :=
  JVal.obj [("recommendations",
              JVal.arr [JVal.str "r1", JVal.str "r2", JVal.str "r3", JVal.str "r4"]),
            ("follow_up_prompt", JVal.str "ok")]

/-- Number of recommendations carried by a remote-call outcome. -/
def exceptRecsLen : Except Unit FBResult → Nat
  | Except.ok r => r.recommendations.length
  | Except.error _ => 0

/-- Success observation on a remote-call outcome. -/
def exceptIsOk : Except Unit FBResult → Bool
  | Except.ok _ => true
  | Except.error _ => false

/-- A fully constructed coordinator whose remote feedback service is not
configured and whose calendar returns nothing. -/
def depsNoRemote : CoordDeps :=
  { hasInterface := true, hasEmotion := true, hasCalendar := true,
    hasFeedback := true, intentFault := false, classifyFault := false,
    emoAgent := {}, hfOracle := fun _ => none,
    eventsOutcome := some [], suggestOutcome := some [],
    fb := noTokenAgent, fbAttempts := fun _ => none,
    bridgeOk := true, craftFault := false }

/-- The same coordinator, with intent extraction raising. -/
def depsIntentFault : CoordDeps := { depsNoRemote with intentFault := true }

/-- An emotion agent explicitly configured to use the pluggable scorer. -/
def hfEnabledAgent : EmotionAgent := { use_hf := true }

/-- An pluggable-scorer oracle that reports high stress on every input. -/
def hfHighOracle : String → Option (List (String × ℚ)) :=
  fun _ => some [("fear", 9/10)]

/-!
Helper lemmas about rounding and the stress formula.
-/

lemma round2_floor_eq (q : ℚ) (n : ℤ) (h1 : (n : ℚ) ≤ q * 100 + 1/2)
    (h2 : q * 100 + 1/2 < (n : ℚ) + 1) : round2 q = (n : ℚ) / 100 := by
  unfold round2
  have h : ⌊q * 100 + 1/2⌋ = n := by
    rw [Int.floor_eq_iff]
    constructor
    · exact h1
    · exact_mod_cast h2
  rw [h]

lemma round2_mono {q r : ℚ} (h : q ≤ r) : round2 q ≤ round2 r := by
  unfold round2
  have h2 : (⌊q * 100 + 1/2⌋ : ℚ) ≤ (⌊r * 100 + 1/2⌋ : ℚ) := by
    exact_mod_cast Int.floor_le_floor (by linarith)
  exact (div_le_div_iff_of_pos_right (by norm_num)).mpr h2

lemma round2_nonneg {q : ℚ} (h : 0 ≤ q) : 0 ≤ round2 q := by
  unfold round2
  apply div_nonneg _ (by norm_num)
  exact_mod_cast Int.le_floor.mpr (by push_cast; linarith)

lemma round2_le_one {q : ℚ} (h : q ≤ 1) : round2 q ≤ 1 := by
  unfold round2
  rw [div_le_one (by norm_num)]
  have h100 : ⌊(201/2 : ℚ)⌋ = 100 := by
    rw [Int.floor_eq_iff]
    norm_num
  have hle := Int.floor_le_floor (show q * 100 + 1/2 ≤ (201/2 : ℚ) by linarith)
  rw [h100] at hle
  exact_mod_cast hle

lemma round2_sevenTenths : round2 (7/10) = 7/10 := by
  rw [round2_floor_eq (7/10) 70 (by norm_num) (by norm_num)]
  norm_num

lemma round2_thirteenTwentieths : round2 (13/20) = 13/20 := by
  rw [round2_floor_eq (13/20) 65 (by norm_num) (by norm_num)]
  norm_num

lemma round2_nineTenths : round2 (9/10) = 9/10 := by
  rw [round2_floor_eq (9/10) 90 (by norm_num) (by norm_num)]
  norm_num

lemma round2_one : round2 1 = 1 := by
  rw [round2_floor_eq 1 100 (by norm_num) (by norm_num)]
  norm_num

lemma sfc_pos_eq (c : Nat) (sp : Bool) (h : 0 < c) :
    stressFromCount c sp = specStressFormula c := by
  unfold stressFromCount specStressFormula
  rw [if_pos h]

lemma specStressFormula_one : specStressFormula 1 = 13/20 := by
  unfold specStressFormula
  norm_num [min_def]

lemma specStressFormula_two : specStressFormula 2 = 9/10 := by
  unfold specStressFormula
  norm_num [min_def]

lemma specStressFormula_three : specStressFormula 3 = 1 := by
  unfold specStressFormula
  norm_num [min_def]

lemma specStressFormula_ge_four (c : Nat) (h : 4 ≤ c) : specStressFormula c = 1 := by
  have hc : (4 : ℚ) ≤ (c : ℚ) := by exact_mod_cast h
  have hbase : min 1 (1/2 + (c : ℚ) * (3/20)) = 1 := by
    apply min_eq_left
    nlinarith
  unfold specStressFormula
  by_cases h6 : 6 ≤ c
  · rw [if_pos h6, hbase, min_eq_left (by norm_num)]
  · rw [if_neg h6, if_pos h, hbase, min_eq_left (by norm_num)]

lemma spec_cases (c : Nat) (h : 0 < c) :
    specStressFormula c = 13/20 ∨ specStressFormula c = 9/10 ∨ specStressFormula c = 1 := by
  rcases c with _ | _ | _ | _ | n
  · exact absurd h (by norm_num)
  · exact Or.inl specStressFormula_one
  · exact Or.inr (Or.inl specStressFormula_two)
  · exact Or.inr (Or.inr specStressFormula_three)
  · exact Or.inr (Or.inr (specStressFormula_ge_four _ (by omega)))

lemma sfc_nonneg (c : Nat) (sp : Bool) : 0 ≤ stressFromCount c sp := by
  unfold stressFromCount
  have hc : (0 : ℚ) ≤ (c : ℚ) := Nat.cast_nonneg c
  split_ifs <;> positivity

lemma sfc_le_one (c : Nat) (sp : Bool) : stressFromCount c sp ≤ 1 := by
  unfold stressFromCount
  split_ifs <;> first | exact min_le_left _ _ | norm_num

lemma classify_heuristic_stress (text : String) :
    (classify_heuristic text).stress_score =
      round2 (if phraseHit (lowerStr text) then
          max (stressFromCount (stressCount (lowerStr text))
            (specificStressWords.any (fun w => containsSub (lowerStr text) w))) (7/10)
        else
          stressFromCount (stressCount (lowerStr text))
            (specificStressWords.any (fun w => containsSub (lowerStr text) w))) := rfl

lemma classify_heuristic_valence (text : String) :
    (classify_heuristic text).valence =
      round2 (if 0 < valenceCount (lowerStr text) then
          min (9/10) (3/10 + (valenceCount (lowerStr text) : ℚ) * (1/10)) else 0) := rfl

lemma classify_eq_heuristic (a : EmotionAgent)
    (hf : String → Option (List (String × ℚ))) (input : Option String) :
    classify a hf input = ⟨classify_heuristic (input.getD ""), false⟩ := by
  unfold classify
  simp

/-- C4: for every agent configuration, every pluggable-scorer oracle and every
input (including absent input, which line 79 normalizes to the empty string),
`classify` is a total function — the model of never raising — whose stress
score and valence both lie in the closed interval [0, 1]. -/
theorem c4_classify_bounds (a : EmotionAgent)
    (hf : String → Option (List (String × ℚ))) (input : Option String) :
    0 ≤ (classify a hf input).res.stress_score ∧
      (classify a hf input).res.stress_score ≤ 1 ∧
      0 ≤ (classify a hf input).res.valence ∧
      (classify a hf input).res.valence ≤ 1 := by
  rw [classify_eq_heuristic]
  refine ⟨?_, ?_, ?_, ?_⟩
  · rw [show (ClassifyOut.mk (classify_heuristic (input.getD "")) false).res =
        classify_heuristic (input.getD "") from rfl, classify_heuristic_stress]
    apply round2_nonneg
    split_ifs
    · exact le_max_of_le_right (by norm_num)
    · exact sfc_nonneg _ _
  · rw [show (ClassifyOut.mk (classify_heuristic (input.getD "")) false).res =
        classify_heuristic (input.getD "") from rfl, classify_heuristic_stress]
    apply round2_le_one
    split_ifs
    · exact max_le (sfc_le_one _ _) (by norm_num)
    · exact sfc_le_one _ _
  · rw [show (ClassifyOut.mk (classify_heuristic (input.getD "")) false).res =
        classify_heuristic (input.getD "") from rfl, classify_heuristic_valence]
    apply round2_nonneg
    split_ifs
    · exact le_min (by norm_num) (by positivity)
    · norm_num
  · rw [show (ClassifyOut.mk (classify_heuristic (input.getD "")) false).res =
        classify_heuristic (input.getD "") from rfl, classify_heuristic_valence]
    apply round2_le_one
    split_ifs
    · exact le_trans (min_le_left _ _) (by norm_num)
    · norm_num

/-- C5: on the heuristic path, whenever at least one stress indicator is
found, the returned stress score equals the specification formula (0.5 plus
0.15 per weighted indicator count clamped to 1, plus the single flat bonus
selected by the count thresholds, again clamped to 1), except that a match of
any high-intensity phrase lifts the result to at least 0.7 as a floor, not an
additive term; and any phrase match forces a final score of at least 0.7. -/
theorem c5_heuristic_stress_formula (text : String) :
    (0 < stressCount (lowerStr text) →
      (classify_heuristic text).stress_score =
        (if phraseHit (lowerStr text) then
          max (specStressFormula (stressCount (lowerStr text))) (7/10)
        else specStressFormula (stressCount (lowerStr text)))) ∧
    (phraseHit (lowerStr text) = true →
      7/10 ≤ (classify_heuristic text).stress_score) := by
  constructor
  · intro hc
    rw [classify_heuristic_stress, sfc_pos_eq _ _ hc]
    by_cases hhit : phraseHit (lowerStr text) = true
    · rw [if_pos hhit]
      rcases spec_cases _ hc with h | h | h <;> rw [h]
      · rw [max_eq_right (by norm_num)]
        exact round2_sevenTenths
      · rw [max_eq_left (by norm_num)]
        exact round2_nineTenths
      · rw [max_eq_left (by norm_num)]
        exact round2_one
    · rw [if_neg hhit]
      rcases spec_cases _ hc with h | h | h <;> rw [h]
      · exact round2_thirteenTwentieths
      · exact round2_nineTenths
      · exact round2_one
  · intro hhit
    rw [classify_heuristic_stress, if_pos hhit]
    calc (7 : ℚ)/10 = round2 (7/10) := round2_sevenTenths.symm
      _ ≤ round2 (max (stressFromCount (stressCount (lowerStr text))
            (specificStressWords.any (fun w => containsSub (lowerStr text) w))) (7/10)) :=
        round2_mono (le_max_right _ _)

/-- Witness for C5 at the concrete input "muitos exames": the weighted count
is 2 (the indicators "exame" and "muitos exames"), the phrase floor matches,
and the returned stress score is 0.9 as the formula demands. -/
theorem c5_heuristic_stress_formula_witness :
    (classify_heuristic "muitos exames").stress_score = 9/10 ∧
    7/10 ≤ (classify_heuristic "muitos exames").stress_score := by
  constructor
  · have h := (c5_heuristic_stress_formula "muitos exames").1 (by decide)
    rw [h, if_pos (by decide),
        show stressCount (lowerStr "muitos exames") = 2 from by decide,
        specStressFormula_two, max_eq_left (by norm_num)]
  · exact (c5_heuristic_stress_formula "muitos exames").2 (by decide)

/-- C6 counterexample: with the pluggable scorer explicitly enabled, a
high-stress oracle available and an input longer than the minimum length,
`classify` still does not invoke the scorer — line 81 of `emotion_agent.py`
overwrites the flag with `False` before the guard — refuting the claim that
the scorer is invoked first. -/
theorem c6_hf_never_invoked_counterexample :
    hfEnabledAgent.use_hf = true ∧
    5 < (stripChars ("tenho exames e estou preocupado").data).length ∧
    (classify hfEnabledAgent hfHighOracle
      (some "tenho exames e estou preocupado")).hfInvoked = false := by
  refine ⟨rfl, by decide, ?_⟩
  rw [classify_eq_heuristic]

/-- C6 amended: `classify` never invokes the optional pluggable scorer — the
flag is overwritten before the guard — so every call, for every agent
configuration, oracle and input, takes the heuristic path. -/
theorem c6_always_heuristic_amended (a : EmotionAgent)
    (hf : String → Option (List (String × ℚ))) (input : Option String) :
    (classify a hf input).hfInvoked = false ∧
    (classify a hf input).res = classify_heuristic (input.getD "") := by
  rw [classify_eq_heuristic]
  exact ⟨rfl, rfl⟩

/-!
Scheduler lemmas.
-/

lemma bfsGo_eq (n : Nat) (queue : List String) (idx : Nat) :
    bfsGo n queue idx =
      (queue.take (n - idx)).mapIdx (fun i t => slotLabel (idx + i) t) := by
  induction queue generalizing idx with
  | nil => simp [bfsGo]
  | cons t rest ih =>
    by_cases h : idx < n
    · have hn : n - idx = (n - (idx + 1)) + 1 := by omega
      simp only [bfsGo]
      rw [if_pos h, ih (idx + 1), hn, List.take_succ_cons, List.mapIdx_cons]
      congr 1
      have hfun : (fun i (u : String) => slotLabel (idx + 1 + i) u) =
          (fun i (u : String) => slotLabel (idx + (i + 1)) u) := by
        funext i u
        have hadd : idx + 1 + i = idx + (i + 1) := by omega
        rw [hadd]
      rw [hfun]
    · simp only [bfsGo]
      rw [if_neg h]
      have h0 : n - idx = 0 := by omega
      rw [h0]
      simp

lemma bfs_schedule_eq (tasks : List String) (b : Nat) :
    bfs_schedule tasks b = (tasks.take b).mapIdx (fun i t => slotLabel i t) := by
  unfold bfs_schedule
  split_ifs with h
  · rcases h with h | h
    · rw [h]
      simp
    · rw [h]
      simp
  · rw [bfsGo_eq, Nat.sub_zero]
    congr 1
    funext i t
    rw [Nat.zero_add]

lemma take_ne_nil {α : Type} {l : List α} {n : Nat} (hl : l ≠ []) (hn : 0 < n) :
    l.take n ≠ [] := by
  cases l with
  | nil => exact absurd rfl hl
  | cons a t =>
    cases n with
    | zero => omega
    | succ m => simp [List.take_succ_cons]

/-- C7: `bfs_schedule` labels the first `min(len(tasks), budget)` tasks in
their original order, one task per slot; the result has exactly that length,
and an empty task list or zero budget yields the empty schedule.  The
function is total (the model of never failing or blocking). -/
theorem c7_bfs_schedule_spec (tasks : List String) (budget : Nat) :
    bfs_schedule tasks budget = (tasks.take budget).mapIdx (fun i t => slotLabel i t) ∧
    (bfs_schedule tasks budget).length = min tasks.length budget ∧
    (tasks = [] ∨ budget = 0 → bfs_schedule tasks budget = []) := by
  refine ⟨bfs_schedule_eq _ _, ?_, ?_⟩
  · rw [bfs_schedule_eq, List.length_mapIdx, List.length_take, Nat.min_comm]
  · intro h
    unfold bfs_schedule
    rw [if_pos h]

/-- Witness for C7: at a zero budget the schedule is empty, and with three
tasks and budget 2 the schedule has length `min 3 2`. -/
theorem c7_bfs_schedule_spec_witness :
    bfs_schedule ["Estudo", "Revisão", "Exercícios"] 0 = [] ∧
    (bfs_schedule ["Estudo", "Revisão", "Exercícios"] 2).length = min 3 2 := by
  constructor
  · exact (c7_bfs_schedule_spec ["Estudo", "Revisão", "Exercícios"] 0).2.2 (Or.inr rfl)
  · have h := (c7_bfs_schedule_spec ["Estudo", "Revisão", "Exercícios"] 2).2.1
    simpa using h

lemma defaulted_take_ne_nil (L : List String) :
    (if L = [] then default_tasks else L).take 4 ≠ [] := by
  apply take_ne_nil _ (by norm_num)
  split_ifs with h
  · simp [default_tasks]
  · exact h

lemma defaulted_take_le_four (L : List String) :
    ((if L = [] then default_tasks else L).take 4).length ≤ 4 := by
  rw [List.length_take]
  exact min_le_left _ _

/-- C10: the task extraction of the coordinator always yields a non-empty list of
at most 4 tasks (the fixed default list fills in when neither the intent
slots nor the keyword scan produce anything), the slot budget is always at
least 2, and hence the schedule handed back by the allocator is itself
non-empty. -/
theorem c10_tasks_schedule_nonempty (text : String) (slotTasks : List String)
    (stress : ℚ) (_h : isBlank text = false) :
    extract_tasks text slotTasks ≠ [] ∧
    (extract_tasks text slotTasks).length ≤ 4 ∧
    2 ≤ calculate_stress_slots stress ∧
    bfs_schedule (extract_tasks text slotTasks) (calculate_stress_slots stress) ≠ [] := by
  have h1 : extract_tasks text slotTasks ≠ [] := defaulted_take_ne_nil _
  have h2 : (extract_tasks text slotTasks).length ≤ 4 := defaulted_take_le_four _
  have h3 : 2 ≤ calculate_stress_slots stress := by
    unfold calculate_stress_slots
    split_ifs <;> norm_num
  refine ⟨h1, h2, h3, ?_⟩
  rw [bfs_schedule_eq]
  intro hEmpty
  rw [List.mapIdx_eq_nil_iff, List.take_eq_nil_iff] at hEmpty
  rcases hEmpty with h0 | h0
  · omega
  · exact h1 h0

/-- Witness for C10 at the non-blank input "ola" with empty intent slots and
zero stress: four default tasks, slot budget 4, non-empty schedule. -/
theorem c10_tasks_schedule_nonempty_witness :
    extract_tasks "ola" [] ≠ [] ∧
    (extract_tasks "ola" []).length ≤ 4 ∧
    2 ≤ calculate_stress_slots 0 ∧
    bfs_schedule (extract_tasks "ola" []) (calculate_stress_slots 0) ≠ [] :=
  c10_tasks_schedule_nonempty "ola" [] 0 (by decide)

/-- C8: with maxRetries = 3 and backoffBase = 1.0, when every attempt fails
the retry loop makes exactly 3 attempts and sleeps exactly 1.0s then 2.0s
between them — the delay after attempt k is `backoffBase * 2 ^ (k - 1)` —
and inserts no delay after the final attempt. -/
theorem c8_retry_delays {R : Type} (a : FBAgent) (f : Nat → Except Unit R)
    (hm : a.max_retries = 3) (hb : a.retry_backoff = 1)
    (hf : ∀ k, f k = Except.error ()) :
    (call_openrouter_with_retries a f).attempts = 3 ∧
    (call_openrouter_with_retries a f).delays = [1, 2] := by
  unfold call_openrouter_with_retries
  rw [hm, hb]
  constructor <;> simp [retryAux, hf]

/-- Witness for C8: a concrete always-failing attempt oracle on the default
agent yields 3 attempts and the delay list [1, 2]. -/
theorem c8_retry_delays_witness :
    (call_openrouter_with_retries tokenAgent
      (fun _ => (Except.error () : Except Unit FBResult))).attempts = 3 ∧
    (call_openrouter_with_retries tokenAgent
      (fun _ => (Except.error () : Except Unit FBResult))).delays = [1, 2] :=
  c8_retry_delays tokenAgent _ rfl rfl (fun _ => rfl)

lemma heuristic_feedback_recs_len (e : EmotionSummary) (cal : List String) :
    (heuristic_feedback e cal).recommendations.length ≤ 3 := by
  unfold heuristic_feedback
  dsimp only
  rw [List.length_take]
  exact min_le_left _ _

lemma craft_message_unavailable (a : FBAgent) (attempts : Nat → Option JVal)
    (bridgeOk : Bool) (e : EmotionSummary) (cal : List String)
    (h : a.openrouter_available = false) :
    craft_message a attempts bridgeOk e cal =
      ({ heuristic_feedback e cal with source := "heuristic_fallback" }, 0) := by
  unfold craft_message
  rw [if_pos h]

lemma heuristic_feedback_recs_ne_nil (e : EmotionSummary) (cal : List String) :
    (heuristic_feedback e cal).recommendations ≠ [] := by
  unfold heuristic_feedback
  dsimp only
  apply take_ne_nil _ (by norm_num)
  split_ifs <;>
    simp [bandCrisis, bandHigh, bandMedium, bandLowValence, bandDefault]

lemma heuristic_feedback_producedBy (e : EmotionSummary) (cal : List String) :
    (heuristic_feedback e cal).producedBy = Generator.heuristic := by
  unfold heuristic_feedback
  dsimp only

/-- C3: when no API token is configured, the synchronous synthesis call
returns the heuristic envelope retagged "heuristic_fallback" — a heuristic
provenance tag, never the remote tag — and issues zero network attempts,
for every emotion summary, calendar-suggestion list, remote oracle and
bridging state. -/
theorem c3_no_token_heuristic_no_network (a : FBAgent)
    (attempts : Nat → Option JVal) (bridgeOk : Bool) (e : EmotionSummary)
    (cal : List String) (h : a.openrouter_available = false) :
    (craft_message a attempts bridgeOk e cal).2 = 0 ∧
    (craft_message a attempts bridgeOk e cal).1.source = "heuristic_fallback" ∧
    (craft_message a attempts bridgeOk e cal).1.producedBy = Generator.heuristic ∧
    (craft_message a attempts bridgeOk e cal).1.recommendations =
      (heuristic_feedback e cal).recommendations := by
  rw [craft_message_unavailable a attempts bridgeOk e cal h]
  exact ⟨rfl, rfl, rfl, rfl⟩

/-- Witness for C3 at a concrete unconfigured agent and neutral summary. -/
theorem c3_no_token_heuristic_no_network_witness :
    (craft_message noTokenAgent (fun _ => none) true zeroSummary []).2 = 0 ∧
    (craft_message noTokenAgent (fun _ => none) true zeroSummary []).1.source =
      "heuristic_fallback" ∧
    (craft_message noTokenAgent (fun _ => none) true zeroSummary []).1.producedBy =
      Generator.heuristic ∧
    (craft_message noTokenAgent (fun _ => none) true zeroSummary []).1.recommendations =
      (heuristic_feedback zeroSummary []).recommendations :=
  c3_no_token_heuristic_no_network noTokenAgent (fun _ => none) true zeroSummary [] rfl

/-- C2 counterexample: a well-formed remote payload carrying four
recommendations passes validation and is returned unchanged — the terminal
remote success path performs no truncation, so a synthesized envelope can
carry 4 > 3 recommendations, refuting the claim. -/
theorem c2_remote_four_recs_counterexample :
    exceptIsOk (call_openrouter (some fourRecsParsed)) = true ∧
    3 < exceptRecsLen (call_openrouter (some fourRecsParsed)) := by
  exact ⟨rfl, by decide⟩

/-- C2 amended: the heuristic generator always returns at most 3
recommendations (it truncates its list to 3), but on terminal remote success
the validated payload is returned with its recommendation list unchanged,
whatever its length — no truncation is applied on the remote path. -/
theorem c2_truncation_amended (e : EmotionSummary) (cal : List String)
    (kvs : List (String × JVal)) (l : List JVal)
    (hl : jlookup kvs "recommendations" = some (JVal.arr l))
    (hne : l.isEmpty = false) :
    (heuristic_feedback e cal).recommendations.length ≤ 3 ∧
    call_openrouter (some (JVal.obj kvs)) = Except.ok
      { recommendations := l,
        follow_up_prompt := jStrOf (jlookup kvs "follow_up_prompt"),
        source := "openrouter",
        producedBy := Generator.remote } := by
  refine ⟨heuristic_feedback_recs_len e cal, ?_⟩
  unfold call_openrouter
  dsimp only
  rw [hl]
  have hcond : ¬(l.isEmpty = true) := by
    rw [hne]
    exact Bool.false_ne_true
  dsimp only
  rw [if_neg hcond]

/-- Witness for C2 amended: the heuristic envelope for the neutral summary
has at most 3 recommendations, and the four-recommendation remote payload
comes back with all 4. -/
theorem c2_truncation_amended_witness :
    (heuristic_feedback zeroSummary []).recommendations.length ≤ 3 ∧
    exceptRecsLen (call_openrouter (some fourRecsParsed)) = 4 := by
  have h := c2_truncation_amended zeroSummary []
      [("recommendations",
         JVal.arr [JVal.str "r1", JVal.str "r2", JVal.str "r3", JVal.str "r4"]),
       ("follow_up_prompt", JVal.str "ok")]
      [JVal.str "r1", JVal.str "r2", JVal.str "r3", JVal.str "r4"] rfl rfl
  exact ⟨h.1, by decide⟩

/-- C1, evaluated at the failing configuration: when no API token is
configured, the agent produces a heuristic fallback envelope, yet the
coordinator then rewrites the tag to "LLM" — the label that announces the
remote generator — so a heuristic-fallback result is mislabelled as remote,
for every emotion summary and suggestion list. -/
theorem c1_source_mislabel_eval (e : EmotionSummary) (cal : List String) :
    (safe_generate_feedback true false noTokenAgent (fun _ => none) true
      e cal).source = "LLM" ∧
    (safe_generate_feedback true false noTokenAgent (fun _ => none) true
      e cal).producedBy = Generator.heuristic := by
  unfold safe_generate_feedback
  rw [if_neg (by simp), if_neg (by simp)]
  rw [craft_message_unavailable noTokenAgent (fun _ => none) true e cal rfl]
  dsimp only
  have hcond : ¬(((heuristic_feedback e cal).recommendations.isEmpty) = true) := by
    rw [List.isEmpty_eq_true]
    exact heuristic_feedback_recs_ne_nil e cal
  rw [if_neg hcond, if_neg (by decide)]
  exact ⟨rfl, heuristic_feedback_producedBy e cal⟩

/-- C9: `handle_text` reports `success = false` in exactly two cases — blank
input, whose envelope carries an empty recommendation list, and a fault
escaping intent extraction (the orchestration-level fault), whose envelope
carries exactly one generic apology recommendation under the system source
tag — and every other, possibly degraded, path reports `success = true`. -/
theorem c9_success_flag (d : CoordDeps) (text : String) :
    ((handle_text d text).success = false ↔
      (isBlank text = true ∨ d.intentFault = true)) ∧
    (isBlank text = true → (handle_text d text).message.recommendations = []) ∧
    (isBlank text = false → d.intentFault = true →
      (handle_text d text).message.recommendations.length = 1 ∧
      (handle_text d text).message.source = "System") := by
  by_cases hb : isBlank text = true
  · have he : handle_text d text = empty_response := by
      unfold handle_text
      rw [if_pos hb]
    rw [he]
    refine ⟨?_, fun _ => rfl, fun hf _ => absurd hb (by simp [hf])⟩
    simp [empty_response, hb]
  · by_cases hi : d.intentFault = true
    · have he : handle_text d text = error_response := by
        unfold handle_text
        rw [if_neg hb, if_pos hi]
      rw [he]
      refine ⟨?_, fun hblank => absurd hblank hb, fun _ _ => ⟨rfl, rfl⟩⟩
      simp [error_response, hi]
    · have hsucc : (handle_text d text).success = true := by
        unfold handle_text
        rw [if_neg hb, if_neg hi]
      refine ⟨?_, fun hblank => absurd hblank hb, fun _ hfault => absurd hfault hi⟩
      rw [hsucc]
      simp [hb, hi]

/-- Witness for C9: blank input gives failure with no recommendations; an
intent-extraction fault on non-blank input gives one apology recommendation
with the system tag. -/
theorem c9_success_flag_witness :
    (handle_text depsNoRemote "").message.recommendations = [] ∧
    (handle_text depsNoRemote "").success = false ∧
    (handle_text depsIntentFault "ola").message.recommendations.length = 1 ∧
    (handle_text depsIntentFault "ola").message.source = "System" := by
  have h1 := c9_success_flag depsNoRemote ""
  have h2 := c9_success_flag depsIntentFault "ola"
  exact ⟨h1.2.1 rfl, h1.1.mpr (Or.inl rfl), (h2.2.2 rfl rfl).1, (h2.2.2 rfl rfl).2⟩
